import Mathlib

/-!
Verification of the OpenGL renderer of the PBR repository (src/opengl.cpp).

The development is a shallow embedding of the renderer: plain records model
the GPU resource handles, pure functions model the resource factory and the
per-frame/setup pipelines, and lists of backend calls model the observable
effects of each operation.  C machine integers appearing here are always
used at small non-negative values by the renderer, so they are embedded as
Nat/Int with the C truncating division and shifting written out explicitly.
Floating-point uniform values are embedded as exact rationals; the only
float arithmetic the claims mention is of the form L * (1 / max (levels-1) 1)
at small integer operands, where float and rational evaluation coincide for
the comparisons at stake (zero versus non-zero, and the algebraic shape).
-/

namespace PBR

/-! ### OpenGL enumerant values (from the GL headers) -/

def GL_NONE : Nat := 0
def GL_RGBA16F : Nat := 0x881A
def GL_RG16F : Nat := 0x822F
def GL_DEPTH24_STENCIL8 : Nat := 0x88F0
def GL_COLOR_ATTACHMENT0 : Nat := 0x8CE0
def GL_DEPTH_STENCIL_ATTACHMENT : Nat := 0x821A
def GL_DEPTH_BUFFER_BIT : Nat := 0x00000100
def GL_STENCIL_BUFFER_BIT : Nat := 0x00000400
def GL_COLOR_BUFFER_BIT : Nat := 0x00004000
def GL_NEAREST : Nat := 0x2600
def GL_TRIANGLES : Nat := 0x0004
def GL_TRIANGLE_STRIP : Nat := 0x0005
def GL_UNSIGNED_INT : Nat := 0x1405
def GL_TEXTURE_2D : Nat := 0x0DE1
def GL_TEXTURE_CUBE_MAP : Nat := 0x8513
def GL_DEPTH_TEST : Nat := 0x0B71

/-- Uniform location constants of opengl.cpp (enum UniformLocations). -/
def ViewProjectionMatrix : Nat := 0

/-- Uniform location constant EyePosition of opengl.cpp. -/
def EyePosition : Nat := 1

/-- Uniform location constant SpecularMapRoughness of opengl.cpp. -/
def SpecularMapRoughness : Nat := 0

/-! ### GPU resource handle records

Modelled from the spec: the record layouts of Texture, FrameBuffer and
VertexBuffer live in opengl.hpp, which is not part of the given sources;
spec.md section 3 and the field accesses in opengl.cpp pin them down. -/

/-- Texture handle: backend identifier plus size/mip metadata. -/
structure Texture where
  id : Nat := 0
  width : Int := 0
  height : Int := 0
  levels : Int := 0
deriving Repr, DecidableEq

/-- FrameBuffer handle: backend identifier, attachment identifiers and
size/sample metadata. -/
structure FrameBuffer where
  id : Nat := 0
  colorTarget : Nat := 0
  depthStencilTarget : Nat := 0
  width : Int := 0
  height : Int := 0
  samples : Int := 0
deriving Repr, DecidableEq

/-- VertexBuffer handle: vertex-array, vertex-store and index-store
identifiers plus the element count. -/
structure VertexBuffer where
  vao : Nat := 0
  vbo : Nat := 0
  ibo : Nat := 0
  numElements : Nat := 0
deriving Repr, DecidableEq

/-! ### createTexture (opengl.cpp lines 303-322) -/

/-- The while loop of Renderer.createTexture deriving the mip level count:
starting from levels = 1, increment while (width|height) >> levels is
non-zero.  mipLoop v l is the loop with v = (width|height) >> l. -/
def mipLoop (v l : Nat) : Nat :=
  if v = 0 then l else mipLoop (v >>> 1) (l + 1)
termination_by v
decreasing_by
  simp only [Nat.shiftRight_one]
  exact Nat.div_lt_self (Nat.pos_of_ne_zero (by assumption)) one_lt_two

/-- Level count derived by createTexture when the levels argument is <= 0.
The C loop works on int operands; the renderer only ever passes the
non-negative texture sizes, on which int bit-or and shift agree with the
Nat operations used here. -/
def derivedLevels (width height : Int) : Nat :=
  mipLoop ((width.toNat ||| height.toNat) >>> 1) 1

/-- Renderer.createTexture(target, width, height, internalformat, levels):
the resulting handle record.  The backend identifier is modelled by a
fresh-id counter argument c (glCreateTextures returns a fresh name). -/
def createTexture (c : Nat) (target : Nat) (width height : Int)
    (internalformat : Nat) (levels : Int) : Texture :=
  { id := c + 1, width := width, height := height,
    levels := if levels ≤ 0 then (derivedLevels width height : Int) else levels }

/-- Minification filter choice of createTexture: trilinear iff more than one
mip level (GL_LINEAR_MIPMAP_LINEAR versus GL_LINEAR). -/
def minFilterTrilinear (t : Texture) : Bool := t.levels > 1

/-! ### Arithmetic facts about the mip-level loop -/

theorem mipLoop_eq (v l : Nat) :
    mipLoop v l = if v = 0 then l else mipLoop (v >>> 1) (l + 1) := by
  rw [mipLoop]

theorem nat_le_or_left (a : Nat) : ∀ b : Nat, a ≤ a ||| b := by
  induction a using Nat.strong_induction_on with
  | _ a ih =>
    intro b
    rcases Nat.eq_zero_or_pos a with rfl | ha
    · simp
    · have h2 : a / 2 ≤ (a ||| b) / 2 := by
        rw [Nat.or_div_two]
        exact ih (a / 2) (Nat.div_lt_self ha one_lt_two) (b / 2)
      have hmod : a % 2 ≤ (a ||| b) % 2 := by
        rcases Nat.mod_two_eq_zero_or_one a with h | h
        · omega
        · have : (a ||| b) % 2 = 1 := Nat.or_mod_two_eq_one.2 (Or.inl h)
          omega
      omega

theorem nat_le_or_right (a b : Nat) : b ≤ a ||| b := by
  rw [Nat.or_comm]
  exact nat_le_or_left b a

theorem mipLoop_shift (v : Nat) : ∀ l : Nat, mipLoop (v >>> 1) l = l + Nat.log 2 v := by
  induction v using Nat.strong_induction_on with
  | _ v ih =>
    intro l
    rcases Nat.lt_or_ge v 2 with hv | hv
    · interval_cases v <;> simp [mipLoop_eq]
    · have hdiv : v >>> 1 = v / 2 := Nat.shiftRight_one v
      have hne : v / 2 ≠ 0 := by
        have : 1 ≤ v / 2 := (Nat.le_div_iff_mul_le (by norm_num)).2 (by omega)
        omega
      have hlt : v / 2 < v := Nat.div_lt_self (by omega) one_lt_two
      rw [hdiv, mipLoop_eq, if_neg hne, ih (v / 2) hlt (l + 1)]
      have hlog : Nat.log 2 (v / 2) = Nat.log 2 v - 1 := Nat.log_div_base 2 v
      have hpos : 0 < Nat.log 2 v := Nat.log_pos one_lt_two hv
      omega

/-- The bit-or of two naturals has the same floor base-2 logarithm as their
maximum (the highest set bit of w ||| h is the highest set bit of max w h). -/
theorem log_or_eq_log_max (w h : Nat) :
    Nat.log 2 (w ||| h) = Nat.log 2 (max w h) := by
  rcases Nat.eq_zero_or_pos (max w h) with hmax | hmax
  · have hw : w = 0 := by omega
    have hh : h = 0 := by omega
    subst hw; subst hh; rfl
  · have hwle : w ≤ max w h := le_max_left w h
    have hhle : h ≤ max w h := le_max_right w h
    set k := Nat.log 2 (max w h) with hk
    have hlow : 2 ^ k ≤ max w h := Nat.pow_log_le_self 2 (by omega)
    have hhigh : max w h < 2 ^ (k + 1) := Nat.lt_pow_succ_log_self one_lt_two _
    have hor_lt : w ||| h < 2 ^ (k + 1) :=
      Nat.or_lt_two_pow (by omega) (by omega)
    have hor_ge : max w h ≤ w ||| h := by
      rcases max_cases w h with ⟨hmw, _⟩ | ⟨hmh, _⟩
      · rw [hmw]; exact nat_le_or_left w h
      · rw [hmh]; exact nat_le_or_right w h
    exact Nat.log_eq_of_pow_le_of_lt_pow (le_trans hlow hor_ge) hor_lt

theorem derivedLevels_eq (width height : Int) :
    derivedLevels width height = 1 + Nat.log 2 (max width.toNat height.toNat) := by
  rw [derivedLevels, mipLoop_shift, log_or_eq_log_max]

/-- Claim C1: for every width and height, createTexture called with
levels <= 0 produces a texture whose level count equals
1 + floor(log2(max(width, height))); called with levels = 1 it produces
exactly 1 level; and in every case the resulting level count is >= 1. -/
theorem createTexture_levels_spec (c target : Nat) (width height : Int)
    (internalformat : Nat) (levels : Int) (hw : 0 ≤ width) (hh : 0 ≤ height) :
    (levels ≤ 0 →
      (createTexture c target width height internalformat levels).levels
        = 1 + (Nat.log 2 (max width height).toNat : Int))
  ∧ (levels = 1 →
      (createTexture c target width height internalformat levels).levels = 1)
  ∧ 1 ≤ (createTexture c target width height internalformat levels).levels := by
  have hmax : (max width height).toNat = max width.toNat height.toNat := by
    rcases le_total width height with hle | hle
    · rw [max_eq_right hle, max_eq_right (Int.toNat_le_toNat hle)]
    · rw [max_eq_left hle, max_eq_left (Int.toNat_le_toNat hle)]
  refine ⟨fun h0 => ?_, fun h1 => ?_, ?_⟩
  · simp only [createTexture, if_pos h0, derivedLevels_eq, hmax]
    push_cast
    ring
  · simp [createTexture, h1]
  · by_cases h0 : levels ≤ 0
    · simp only [createTexture, if_pos h0, derivedLevels_eq]
      have : (0 : Int) ≤ (Nat.log 2 (max width.toNat height.toNat) : Int) :=
        Int.natCast_nonneg _
      push_cast
      omega
    · simp only [createTexture, if_neg h0]
      omega

/-- Witness for claim C1: the two concrete createTexture calls of setup, one
with the level count left to be derived (the 1024 x 1024 environment cubemap
gets 11 levels) and one with levels explicitly 1. -/
theorem createTexture_levels_spec_witness :
    (createTexture 0 GL_TEXTURE_CUBE_MAP 1024 1024 GL_RGBA16F 0).levels
        = 1 + (Nat.log 2 (max (1024 : Int) 1024).toNat : Int)
  ∧ (createTexture 0 GL_TEXTURE_2D 256 256 GL_RG16F 1).levels = 1
  ∧ (createTexture 0 GL_TEXTURE_CUBE_MAP 1024 1024 GL_RGBA16F 0).levels = 11 := by
  refine ⟨(createTexture_levels_spec 0 GL_TEXTURE_CUBE_MAP 1024 1024 GL_RGBA16F 0
      (by decide) (by decide)).1 (by decide),
    (createTexture_levels_spec 0 GL_TEXTURE_2D 256 256 GL_RG16F 1
      (by decide) (by decide)).2.1 rfl, ?_⟩
  have hlog : Nat.log 2 1024 = 10 :=
    Nat.log_eq_of_pow_le_of_lt_pow (by norm_num) (by norm_num)
  have h := (createTexture_levels_spec 0 GL_TEXTURE_CUBE_MAP 1024 1024 GL_RGBA16F 0
      (by decide) (by decide)).1 (by decide)
  rw [h, show (max (1024 : Int) 1024).toNat = 1024 from by decide, hlog]
  norm_num

/-! ### Specular prefilter dispatch loop (opengl.cpp lines 161-179) -/

/-- One glDispatchCompute of the specular prefilter stage, together with the
mip level bound to the output image unit and the roughness uniform value set
just before the dispatch. -/
structure Dispatch where
  level : Nat
  groupsX : Nat
  groupsY : Nat
  groupsZ : Nat
  roughness : ℚ
deriving Repr, DecidableEq

/-- deltaRoughness = 1.0f / glm::max(float(levels-1), 1.0f), embedded over
the rationals. -/
def deltaRoughness (levels : Int) : ℚ := 1 / max ((levels : ℚ) - 1) 1

/-- Body iteration of the prefilter for-loop: n remaining iterations with
loop variables level and size (the loop runs while level <= levels, so
n = levels + 1 at entry; size starts at 1024 and is halved each turn; both
stay non-negative, where C int division agrees with Nat division). -/
def spmapGo (dR : ℚ) : Nat → Nat → Nat → List Dispatch
  | 0, _, _ => []
  | n + 1, level, size =>
    { level := level, groupsX := max 1 (size / 32), groupsY := max 1 (size / 32),
      groupsZ := 6, roughness := (level : ℚ) * dR } ::
      spmapGo dR n (level + 1) (size / 2)

/-- The dispatches issued by the prefilter stage of Renderer.setup for an
output cubemap with the given mip level count:
for(int level=0, size=1024; level<=levels; ++level, size/=2). -/
def spmapDispatches (levels : Int) : List Dispatch :=
  spmapGo (deltaRoughness levels) (levels + 1).toNat 0 1024

theorem spmapGo_closed_form (dR : ℚ) :
    ∀ (n level size : Nat), spmapGo dR n level size =
      (List.range n).map fun i =>
        { level := level + i, groupsX := max 1 (size / 2 ^ i / 32),
          groupsY := max 1 (size / 2 ^ i / 32), groupsZ := 6,
          roughness := ((level + i : Nat) : ℚ) * dR } := by
  intro n
  induction n with
  | zero => intro level size; rfl
  | succ n ih =>
    intro level size
    rw [spmapGo, ih (level + 1) (size / 2), List.range_succ_eq_map]
    simp only [List.map_cons, List.map_map]
    congr 1
    · simp
    · apply List.map_congr_left
      intro i _
      have hdiv : size / 2 / 2 ^ i = size / 2 ^ (i + 1) := by
        rw [Nat.div_div_eq_div_mul, ← pow_succ']
      have harg : level + 1 + i = level + (i + 1) := by omega
      simp only [Function.comp_apply, Nat.succ_eq_add_one, hdiv, harg]

theorem spmapDispatches_closed_form (levels : Int) :
    spmapDispatches levels =
      (List.range (levels + 1).toNat).map fun i =>
        { level := i, groupsX := max 1 (1024 / 2 ^ i / 32),
          groupsY := max 1 (1024 / 2 ^ i / 32), groupsZ := 6,
          roughness := (i : ℚ) * deltaRoughness levels } := by
  rw [spmapDispatches, spmapGo_closed_form]
  simp

/-- Claim C2: for an output texture with levels mip levels, the prefilter
stage performs exactly levels + 1 compute dispatches, the i-th being at mip
level i, and the dispatch at level L uses group count max(1, (1024 >> L)/32)
in each of the first two grid dimensions and 6 in the third. -/
theorem spmap_dispatch_spec (levels : Int) (hlev : 0 ≤ levels) :
    ((spmapDispatches levels).length : Int) = levels + 1
  ∧ ∀ (i : Nat) (hi : i < (spmapDispatches levels).length),
      ((spmapDispatches levels).get ⟨i, hi⟩).level = i
    ∧ ((spmapDispatches levels).get ⟨i, hi⟩).groupsX = max 1 ((1024 >>> i) / 32)
    ∧ ((spmapDispatches levels).get ⟨i, hi⟩).groupsY = max 1 ((1024 >>> i) / 32)
    ∧ ((spmapDispatches levels).get ⟨i, hi⟩).groupsZ = 6 := by
  constructor
  · rw [spmapDispatches_closed_form]
    simp [Int.toNat_of_nonneg (by omega : (0 : Int) ≤ levels + 1)]
  · intro i hi
    simp only [spmapDispatches_closed_form, List.get_eq_getElem, List.getElem_map,
      List.getElem_range, Nat.shiftRight_eq_div_pow]
    simp

/-- Witness for claim C2 at the actual prefilter texture of setup (a
1024 x 1024 cubemap with 11 mip levels): 12 dispatches, and the dispatch at
level 3 uses 4 x 4 x 6 groups. -/
theorem spmap_dispatch_spec_witness :
    ((spmapDispatches 11).length : Int) = 12
  ∧ (spmapDispatches 11).length = 12
  ∧ ((spmapDispatches 11).get ⟨3, by decide⟩).groupsX = 4 := by
  have h := spmap_dispatch_spec 11 (by decide)
  have hlen : (spmapDispatches 11).length = 12 := by decide
  refine ⟨by rw [h.1]; norm_num, hlen, ?_⟩
  have hx := (h.2 3 (by rw [hlen]; omega)).2.1
  rw [hx]
  decide

/-- Claim C3 as stated is false: for levels = 1 the loop still dispatches
levels 0 and 1, and the roughness uniform of the level-1 dispatch is
1 * (1 / max(0, 1)) = 1, not 0. -/
theorem spmap_roughness_counterexample :
    ¬ ∀ d ∈ spmapDispatches 1, d.roughness = 0 := by
  intro hall
  have hdR : deltaRoughness 1 = 1 := by
    rw [deltaRoughness]
    norm_num
  have hlist : spmapDispatches 1 = [Dispatch.mk 0 32 32 6 0, Dispatch.mk 1 16 16 6 1] := by
    rw [spmapDispatches, hdR]
    norm_num [spmapGo]
  have := hall (Dispatch.mk 1 16 16 6 1) (by rw [hlist]; simp)
  norm_num at this

/-- Claim C3 amended: the roughness uniform of the dispatch at level L is
L * (1 / (levels - 1)) when levels > 1; when levels <= 1 the divisor is
clamped to 1, so the uniform equals L itself (0 for the single level-0
dispatch when levels <= 0, but reaching 1 at the level-1 dispatch when
levels = 1). -/
theorem spmap_roughness_amended (levels : Int) (i : Nat)
    (hi : i < (spmapDispatches levels).length) :
    (1 < levels →
      ((spmapDispatches levels).get ⟨i, hi⟩).roughness
        = (i : ℚ) * (1 / ((levels : ℚ) - 1)))
  ∧ (levels ≤ 1 →
      ((spmapDispatches levels).get ⟨i, hi⟩).roughness = (i : ℚ)) := by
  have h := spmapDispatches_closed_form levels
  constructor
  · intro hgt
    have hmax : max ((levels : ℚ) - 1) 1 = (levels : ℚ) - 1 := by
      apply max_eq_left
      have : (2 : ℚ) ≤ (levels : ℚ) := by exact_mod_cast hgt
      linarith
    simp only [h, List.get_eq_getElem, List.getElem_map, List.getElem_range,
      deltaRoughness, hmax]
  · intro hle
    have hmax : max ((levels : ℚ) - 1) 1 = 1 := by
      apply max_eq_right
      have : (levels : ℚ) ≤ 1 := by exact_mod_cast hle
      linarith
    simp only [h, List.get_eq_getElem, List.getElem_map, List.getElem_range,
      deltaRoughness, hmax]
    norm_num

/-- Witness for the amended claim C3: at the actual level count 11, the
level-3 dispatch gets roughness 3/10; at level count 1, the level-1 dispatch
gets roughness 1. -/
theorem spmap_roughness_amended_witness :
    ((spmapDispatches 11).get ⟨3, by decide⟩).roughness = (3 : ℚ) * (1 / 10)
  ∧ ((spmapDispatches 1).get ⟨1, by decide⟩).roughness = 1 := by
  constructor
  · have h := (spmap_roughness_amended 11 3 (by decide)).1 (by decide)
    rw [h]
    norm_num
  · have h := (spmap_roughness_amended 1 1 (by decide)).2 (by decide)
    rw [h]
    norm_num

/-! ### Backend calls

The observable effects of the renderer are modelled as lists of backend
(OpenGL / GLFW) calls.  Query calls (glGet*) are modelled through the
ProgramBackend outcome record instead. -/

/-- View parameters supplied by the caller each frame (opengl.hpp fields
fov, pitch, yaw, distance).  The float values are payload only: the
matrix arithmetic derived from them is abstracted as data attached to the
uniform-upload calls. -/
structure ViewSettings where
  fov : ℚ := 0
  pitch : ℚ := 0
  yaw : ℚ := 0
  distance : ℚ := 0
deriving Repr, DecidableEq

/-- A backend call issued by the renderer. -/
inductive GLCall where
  | blitNamedFramebuffer (src dst : Nat) (sx0 sy0 sx1 sy1 dx0 dy0 dx1 dy1 : Int)
      (mask filter : Nat)
  | invalidateNamedFramebufferData (fb : Nat) (attachments : List Nat)
  | deleteFramebuffers (id : Nat)
  | deleteTextures (id : Nat)
  | deleteRenderbuffers (id : Nat)
  | deleteVertexArrays (id : Nat)
  | deleteBuffers (id : Nat)
  | deleteProgram (id : Nat)
  | attachShader (program shader : Nat)
  | glLinkProgram (program : Nat)
  | detachShader (program shader : Nat)
  | deleteShader (shader : Nat)
  | validateProgram (program : Nat)
  | programUniformMatrix4 (program loc : Nat) (view : ViewSettings)
  | programUniform3 (program loc : Nat) (view : ViewSettings)
  | bindFramebuffer (id : Nat)
  | clear (mask : Nat)
  | enable (cap : Nat)
  | disable (cap : Nat)
  | useProgram (program : Nat)
  | bindTextureUnit (unit : Nat) (tex : Nat)
  | bindVertexArray (vao : Nat)
  | drawElements (mode : Nat) (count : Nat) (ty : Nat)
  | drawArrays (mode first count : Nat)
  | swapBuffers
deriving Repr, DecidableEq

/-! ### createFrameBuffer (opengl.cpp lines 346-383) -/

/-- Kind of backend object backing an attachment: none, a sampleable 2-D
texture, a single-sample renderbuffer, or a multisampled renderbuffer. -/
inductive AttachKind where
  | none
  | texture2D
  | renderbuffer
  | renderbufferMS
deriving Repr, DecidableEq

/-- Result of Renderer.createFrameBuffer: the handle record, the storage
kind chosen for each attachment, and the advanced fresh-id counter (each
glCreate* backend call hands out the next identifier, always non-zero). -/
structure CreatedFB where
  fb : FrameBuffer
  colorKind : AttachKind
  dsKind : AttachKind
  counter : Nat
deriving Repr, DecidableEq

/-- Renderer.createFrameBuffer(width, height, samples, colorFormat,
depthstencilFormat).  The completeness check is a backend query and is not
part of the record; its failure aborts setup (claim C4 is about the
attachment structure). -/
def createFrameBuffer (c : Nat) (width height samples : Int)
    (colorFormat depthstencilFormat : Nat) : CreatedFB :=
  let fbId := c + 1
  let colorRes : Nat × AttachKind × Nat :=
    if colorFormat ≠ GL_NONE then
      if samples > 0 then (c + 2, AttachKind.renderbufferMS, c + 2)
      else (c + 2, AttachKind.texture2D, c + 2)
    else (0, AttachKind.none, c + 1)
  let dsRes : Nat × AttachKind × Nat :=
    if depthstencilFormat ≠ GL_NONE then
      (colorRes.2.2 + 1,
        if samples > 0 then AttachKind.renderbufferMS else AttachKind.renderbuffer,
        colorRes.2.2 + 1)
    else (0, AttachKind.none, colorRes.2.2)
  { fb := { id := fbId, colorTarget := colorRes.1, depthStencilTarget := dsRes.1,
            width := width, height := height, samples := samples },
    colorKind := colorRes.2.1, dsKind := dsRes.2.1, counter := dsRes.2.2 }

/-- Claim C4: when samples > 0 both attachments (when requested) are
multisampled renderbuffers; when samples == 0 the color attachment is a
sampleable texture and the depth/stencil attachment is a non-multisampled
renderbuffer; when colorFormat is the GL_NONE sentinel no color attachment
is created and the colorTarget identifier stays empty. -/
theorem createFrameBuffer_attachments (c : Nat) (width height samples : Int)
    (colorFormat depthstencilFormat : Nat) :
    (0 < samples →
      (colorFormat ≠ GL_NONE →
        (createFrameBuffer c width height samples colorFormat depthstencilFormat).colorKind
          = AttachKind.renderbufferMS)
      ∧ (depthstencilFormat ≠ GL_NONE →
        (createFrameBuffer c width height samples colorFormat depthstencilFormat).dsKind
          = AttachKind.renderbufferMS))
  ∧ (samples = 0 →
      (colorFormat ≠ GL_NONE →
        (createFrameBuffer c width height samples colorFormat depthstencilFormat).colorKind
          = AttachKind.texture2D)
      ∧ (depthstencilFormat ≠ GL_NONE →
        (createFrameBuffer c width height samples colorFormat depthstencilFormat).dsKind
          = AttachKind.renderbuffer))
  ∧ (colorFormat = GL_NONE →
      (createFrameBuffer c width height samples colorFormat depthstencilFormat).colorKind
        = AttachKind.none
      ∧ (createFrameBuffer c width height samples colorFormat depthstencilFormat).fb.colorTarget
        = 0) := by
  refine ⟨fun hs => ⟨fun hc => ?_, fun hd => ?_⟩,
    fun hs => ⟨fun hc => ?_, fun hd => ?_⟩, fun hc => ⟨?_, ?_⟩⟩ <;>
    simp_all [createFrameBuffer]

/-- Witness for claim C4 at the two createFrameBuffer calls of initialize
with 16 samples: the multisampled main target and the single-sample
resolve target without color-none sentinel, plus a color-none call. -/
theorem createFrameBuffer_attachments_witness :
    (createFrameBuffer 0 1024 1024 16 GL_RGBA16F GL_DEPTH24_STENCIL8).colorKind
      = AttachKind.renderbufferMS
  ∧ (createFrameBuffer 0 1024 1024 16 GL_RGBA16F GL_DEPTH24_STENCIL8).dsKind
      = AttachKind.renderbufferMS
  ∧ (createFrameBuffer 0 1024 1024 0 GL_RGBA16F GL_DEPTH24_STENCIL8).colorKind
      = AttachKind.texture2D
  ∧ (createFrameBuffer 0 1024 1024 0 GL_RGBA16F GL_DEPTH24_STENCIL8).dsKind
      = AttachKind.renderbuffer
  ∧ (createFrameBuffer 0 1024 1024 0 GL_NONE GL_DEPTH24_STENCIL8).colorKind
      = AttachKind.none
  ∧ (createFrameBuffer 0 1024 1024 0 GL_NONE GL_DEPTH24_STENCIL8).fb.colorTarget = 0 := by
  have h16 := createFrameBuffer_attachments 0 1024 1024 16 GL_RGBA16F GL_DEPTH24_STENCIL8
  have h0 := createFrameBuffer_attachments 0 1024 1024 0 GL_RGBA16F GL_DEPTH24_STENCIL8
  have hn := createFrameBuffer_attachments 0 1024 1024 0 GL_NONE GL_DEPTH24_STENCIL8
  exact ⟨(h16.1 (by decide)).1 (by decide), (h16.1 (by decide)).2 (by decide),
    (h0.2.1 rfl).1 (by decide), (h0.2.1 rfl).2 (by decide),
    (hn.2.2 rfl).1, (hn.2.2 rfl).2⟩

/-! ### resolveFramebuffer (opengl.cpp lines 385-402) -/

/-- The attachment list built by Renderer.resolveFramebuffer before the
invalidation call: GL_COLOR_ATTACHMENT0 if a color target is present,
then GL_DEPTH_STENCIL_ATTACHMENT if a depth/stencil target is present. -/
def resolveAttachments (srcfb : FrameBuffer) : List Nat :=
  (if srcfb.colorTarget ≠ 0 then [GL_COLOR_ATTACHMENT0] else [])
    ++ (if srcfb.depthStencilTarget ≠ 0 then [GL_DEPTH_STENCIL_ATTACHMENT] else [])

/-- Renderer.resolveFramebuffer(srcfb, dstfb): both records are taken by
const reference and never written, so they are returned unchanged together
with the backend calls issued. -/
def resolveFramebuffer (srcfb dstfb : FrameBuffer) :
    FrameBuffer × FrameBuffer × List GLCall :=
  if srcfb.id = dstfb.id then (srcfb, dstfb, [])
  else
    (srcfb, dstfb,
      [GLCall.blitNamedFramebuffer srcfb.id dstfb.id
          0 0 (srcfb.width - 1) (srcfb.height - 1)
          0 0 (dstfb.width - 1) (dstfb.height - 1)
          GL_COLOR_BUFFER_BIT GL_NEAREST,
        GLCall.invalidateNamedFramebufferData srcfb.id (resolveAttachments srcfb)])

/-- Claim C5: resolving a framebuffer into itself (equal backend
identifier) issues zero backend calls and leaves both records unchanged;
otherwise exactly one nearest-neighbor color blit is issued, followed by
one invalidation of the source attachments. -/
theorem resolveFramebuffer_spec (src dst : FrameBuffer) :
    (resolveFramebuffer src dst).1 = src
  ∧ (resolveFramebuffer src dst).2.1 = dst
  ∧ (src.id = dst.id → (resolveFramebuffer src dst).2.2 = [])
  ∧ (src.id ≠ dst.id → (resolveFramebuffer src dst).2.2 =
      [GLCall.blitNamedFramebuffer src.id dst.id
          0 0 (src.width - 1) (src.height - 1)
          0 0 (dst.width - 1) (dst.height - 1)
          GL_COLOR_BUFFER_BIT GL_NEAREST,
        GLCall.invalidateNamedFramebufferData src.id (resolveAttachments src)]) := by
  by_cases h : src.id = dst.id <;>
    simp [resolveFramebuffer, h]

/-- Witness for claim C5: a framebuffer resolved into itself issues no
calls; two distinct framebuffers issue the blit and the invalidation. -/
theorem resolveFramebuffer_spec_witness :
    (resolveFramebuffer { id := 1 } { id := 1 }).2.2 = []
  ∧ (resolveFramebuffer { id := 1, colorTarget := 2 } { id := 3 }).2.2 =
      [GLCall.blitNamedFramebuffer 1 3 0 0 (-1) (-1) 0 0 (-1) (-1)
          GL_COLOR_BUFFER_BIT GL_NEAREST,
        GLCall.invalidateNamedFramebufferData 1
          (resolveAttachments { id := 1, colorTarget := 2 })] := by
  exact ⟨(resolveFramebuffer_spec { id := 1 } { id := 1 }).2.2.1 rfl,
    (resolveFramebuffer_spec { id := 1, colorTarget := 2 } { id := 3 }).2.2.2 (by decide)⟩

/-- Claim C6: when src and dst differ, the invalidation receives exactly
the attachments present on src — GL_COLOR_ATTACHMENT0 iff a color target
exists and GL_DEPTH_STENCIL_ATTACHMENT iff a depth/stencil target exists —
and under the precondition that src has at least one attachment the list
is non-empty, so the size assertion holds and the invalidation call never
gets an empty list. -/
theorem resolve_invalidation_attachments (src dst : FrameBuffer)
    (hne : src.id ≠ dst.id) :
    (GL_COLOR_ATTACHMENT0 ∈ resolveAttachments src ↔ src.colorTarget ≠ 0)
  ∧ (GL_DEPTH_STENCIL_ATTACHMENT ∈ resolveAttachments src ↔ src.depthStencilTarget ≠ 0)
  ∧ (src.colorTarget ≠ 0 ∨ src.depthStencilTarget ≠ 0 →
      0 < (resolveAttachments src).length)
  ∧ GLCall.invalidateNamedFramebufferData src.id (resolveAttachments src)
      ∈ (resolveFramebuffer src dst).2.2 := by
  refine ⟨?_, ?_, ?_, ?_⟩
  · by_cases hc : src.colorTarget = 0 <;>
      by_cases hd : src.depthStencilTarget = 0 <;>
      simp [resolveAttachments, hc, hd, GL_COLOR_ATTACHMENT0, GL_DEPTH_STENCIL_ATTACHMENT]
  · by_cases hc : src.colorTarget = 0 <;>
      by_cases hd : src.depthStencilTarget = 0 <;>
      simp [resolveAttachments, hc, hd, GL_COLOR_ATTACHMENT0, GL_DEPTH_STENCIL_ATTACHMENT]
  · intro hor
    rcases hor with hc | hd
    · by_cases hdz : src.depthStencilTarget = 0 <;>
        simp [resolveAttachments, hc, hdz]
    · by_cases hcz : src.colorTarget = 0 <;>
        simp [resolveAttachments, hd, hcz]
  · simp [resolveFramebuffer, hne]

/-- Witness for claim C6 at a framebuffer with both attachments present. -/
theorem resolve_invalidation_attachments_witness :
    (GL_COLOR_ATTACHMENT0 ∈ resolveAttachments { id := 1, colorTarget := 2, depthStencilTarget := 3 })
  ∧ 0 < (resolveAttachments { id := 1, colorTarget := 2, depthStencilTarget := 3 }).length
  ∧ GLCall.invalidateNamedFramebufferData 1
      (resolveAttachments { id := 1, colorTarget := 2, depthStencilTarget := 3 })
      ∈ (resolveFramebuffer { id := 1, colorTarget := 2, depthStencilTarget := 3 } { id := 4 }).2.2 := by
  have h := resolve_invalidation_attachments
    { id := 1, colorTarget := 2, depthStencilTarget := 3 } { id := 4 } (by decide)
  exact ⟨h.1.2 (by decide), h.2.2.1 (Or.inl (by decide)), h.2.2.2⟩

/-! ### linkProgram (opengl.cpp lines 274-301) -/

/-- Backend outcome of the link and validation queries for one program:
GL_LINK_STATUS, GL_VALIDATE_STATUS and the program info log text. -/
structure ProgramBackend where
  linkOK : Bool
  validateOK : Bool
  infoLog : String
deriving Repr, DecidableEq

/-- Renderer.linkProgram(shaders): attach every stage, link, then detach
and delete every stage; if linking succeeded run a validation pass; a
failed link or validation throws a runtime error carrying the program info
log, otherwise the program handle is returned.  The thrown error is
modelled as Except.error. -/
def linkProgram (be : ProgramBackend) (program : Nat) (shaders : List Nat) :
    Except String Nat × List GLCall :=
  let calls := shaders.map (fun s => GLCall.attachShader program s)
    ++ [GLCall.glLinkProgram program]
    ++ shaders.flatMap (fun s => [GLCall.detachShader program s, GLCall.deleteShader s])
  if be.linkOK then
    let calls := calls ++ [GLCall.validateProgram program]
    if be.validateOK then (Except.ok program, calls)
    else (Except.error ("Program link failed\n" ++ be.infoLog), calls)
  else (Except.error ("Program link failed\n" ++ be.infoLog), calls)

/-- Claim C7: linkProgram detaches and deletes every given shader stage
regardless of the link outcome; when linking succeeds it additionally runs
a validation pass; and it returns an error carrying the program info log
iff the link or the validation fails, otherwise the program handle. -/
theorem linkProgram_spec (be : ProgramBackend) (program : Nat) (shaders : List Nat) :
    (∀ s ∈ shaders,
        GLCall.detachShader program s ∈ (linkProgram be program shaders).2
      ∧ GLCall.deleteShader s ∈ (linkProgram be program shaders).2)
  ∧ (be.linkOK = true →
      GLCall.validateProgram program ∈ (linkProgram be program shaders).2)
  ∧ (linkProgram be program shaders).1 =
      (if be.linkOK && be.validateOK then Except.ok program
       else Except.error ("Program link failed\n" ++ be.infoLog)) := by
  refine ⟨fun s hs => ?_, fun hlink => ?_, ?_⟩
  · cases hb : be.linkOK <;> cases hv : be.validateOK <;>
      constructor <;>
      simp [linkProgram, hb, hv, List.mem_flatMap] <;>
      exact hs
  · simp [linkProgram, hlink]
    cases be.validateOK <;> simp
  · cases hb : be.linkOK <;> cases hv : be.validateOK <;>
      simp [linkProgram, hb, hv]

/-- Witness for claim C7: a program with two stages whose link succeeds but
whose validation fails — both stages are detached and deleted, validation
runs, and the error carries the log. -/
theorem linkProgram_spec_witness :
    GLCall.detachShader 5 7 ∈ (linkProgram ⟨true, false, "LOG"⟩ 5 [7, 8]).2
  ∧ GLCall.deleteShader 8 ∈ (linkProgram ⟨true, false, "LOG"⟩ 5 [7, 8]).2
  ∧ GLCall.validateProgram 5 ∈ (linkProgram ⟨true, false, "LOG"⟩ 5 [7, 8]).2
  ∧ (linkProgram ⟨true, false, "LOG"⟩ 5 [7, 8]).1
      = Except.error ("Program link failed\n" ++ "LOG") := by
  have h := linkProgram_spec ⟨true, false, "LOG"⟩ 5 [7, 8]
  refine ⟨(h.1 7 (by decide)).1, (h.1 8 (by decide)).2, h.2.1 rfl, ?_⟩
  rw [h.2.2]
  rfl

/-! ### Delete operations (opengl.cpp lines 340-344, 404-421, 470-482) -/

/-- Renderer.deleteTexture: releases the backend storage and memsets the
record to zero. -/
def deleteTexture (t : Texture) : Texture × List GLCall :=
  (({} : Texture), [GLCall.deleteTextures t.id])

/-- Renderer.deleteFrameBuffer: destroys the framebuffer object and each
attachment with the destructor matching its storage kind (texture when
samples == 0, renderbuffer otherwise), then memsets the record to zero. -/
def deleteFrameBuffer (fb : FrameBuffer) : FrameBuffer × List GLCall :=
  (({} : FrameBuffer),
    (if fb.id ≠ 0 then [GLCall.deleteFramebuffers fb.id] else [])
    ++ (if fb.colorTarget ≠ 0 then
          if fb.samples = 0 then [GLCall.deleteTextures fb.colorTarget]
          else [GLCall.deleteRenderbuffers fb.colorTarget]
        else [])
    ++ (if fb.depthStencilTarget ≠ 0 then
          [GLCall.deleteRenderbuffers fb.depthStencilTarget] else []))

/-- Renderer.deleteVertexBuffer: destroys vertex-array, vertex-store and
index-store objects (each only if present) and memsets the record. -/
def deleteVertexBuffer (buffer : VertexBuffer) : VertexBuffer × List GLCall :=
  (({} : VertexBuffer),
    (if buffer.vao ≠ 0 then [GLCall.deleteVertexArrays buffer.vao] else [])
    ++ (if buffer.vbo ≠ 0 then [GLCall.deleteBuffers buffer.vbo] else [])
    ++ (if buffer.ibo ≠ 0 then [GLCall.deleteBuffers buffer.ibo] else []))

/-- Claim C8: after any of the three delete operations, every stored
backend identifier and metadata field of the handle record equals zero
(the records are memset to zero). -/
theorem delete_resets_records (t : Texture) (fb : FrameBuffer) (vb : VertexBuffer) :
    (deleteTexture t).1.id = 0 ∧ (deleteTexture t).1.width = 0
  ∧ (deleteTexture t).1.height = 0 ∧ (deleteTexture t).1.levels = 0
  ∧ (deleteFrameBuffer fb).1.id = 0 ∧ (deleteFrameBuffer fb).1.colorTarget = 0
  ∧ (deleteFrameBuffer fb).1.depthStencilTarget = 0 ∧ (deleteFrameBuffer fb).1.width = 0
  ∧ (deleteFrameBuffer fb).1.height = 0 ∧ (deleteFrameBuffer fb).1.samples = 0
  ∧ (deleteVertexBuffer vb).1.vao = 0 ∧ (deleteVertexBuffer vb).1.vbo = 0
  ∧ (deleteVertexBuffer vb).1.ibo = 0 ∧ (deleteVertexBuffer vb).1.numElements = 0 := by
  exact ⟨rfl, rfl, rfl, rfl, rfl, rfl, rfl, rfl, rfl, rfl, rfl, rfl, rfl, rfl⟩

/-! ### Renderer state and the per-frame pass (opengl.cpp lines 198-246) -/

/-- The resource-owning fields of the Renderer facade (opengl.hpp members,
as accessed by opengl.cpp). -/
structure RendererState where
  m_framebuffer : FrameBuffer := {}
  m_resolveFramebuffer : FrameBuffer := {}
  m_tonemapProgram : Nat := 0
  m_skyboxProgram : Nat := 0
  m_pbrProgram : Nat := 0
  m_envTexture : Texture := {}
  m_irmapTexture : Texture := {}
  m_spmapTexture : Texture := {}
  m_spBRDF_LUT : Texture := {}
  m_albedoTexture : Texture := {}
  m_normalTexture : Texture := {}
  m_metalnessTexture : Texture := {}
  m_roughnessTexture : Texture := {}
  m_screenQuad : VertexBuffer := {}
  m_skybox : VertexBuffer := {}
  m_pbrModel : VertexBuffer := {}
deriving Repr, DecidableEq

/-- Renderer.render(window, view): the backend calls of one frame, in
program order.  The matrix/eye-position values pushed by the three uniform
uploads are float functions of the view input; they are carried as the
view payload on those calls. -/
def render (st : RendererState) (view : ViewSettings) : List GLCall :=
  [GLCall.programUniformMatrix4 st.m_skyboxProgram ViewProjectionMatrix view,
    GLCall.programUniformMatrix4 st.m_pbrProgram ViewProjectionMatrix view,
    GLCall.programUniform3 st.m_pbrProgram EyePosition view,
    GLCall.bindFramebuffer st.m_framebuffer.id,
    GLCall.clear GL_DEPTH_BUFFER_BIT,
    GLCall.disable GL_DEPTH_TEST,
    GLCall.useProgram st.m_skyboxProgram,
    GLCall.bindTextureUnit 0 st.m_envTexture.id,
    GLCall.bindVertexArray st.m_skybox.vao,
    GLCall.drawElements GL_TRIANGLES st.m_skybox.numElements GL_UNSIGNED_INT,
    GLCall.enable GL_DEPTH_TEST,
    GLCall.useProgram st.m_pbrProgram,
    GLCall.bindTextureUnit 0 st.m_albedoTexture.id,
    GLCall.bindTextureUnit 1 st.m_normalTexture.id,
    GLCall.bindTextureUnit 2 st.m_metalnessTexture.id,
    GLCall.bindTextureUnit 3 st.m_roughnessTexture.id,
    GLCall.bindTextureUnit 4 st.m_irmapTexture.id,
    GLCall.bindTextureUnit 5 st.m_spmapTexture.id,
    GLCall.bindTextureUnit 6 st.m_spBRDF_LUT.id,
    GLCall.bindVertexArray st.m_pbrModel.vao,
    GLCall.drawElements GL_TRIANGLES st.m_pbrModel.numElements GL_UNSIGNED_INT]
  ++ (resolveFramebuffer st.m_framebuffer st.m_resolveFramebuffer).2.2
  ++ [GLCall.bindFramebuffer 0,
    GLCall.useProgram st.m_tonemapProgram,
    GLCall.bindTextureUnit 0 st.m_resolveFramebuffer.colorTarget,
    GLCall.bindVertexArray st.m_screenQuad.vao,
    GLCall.drawArrays GL_TRIANGLE_STRIP 0 4,
    GLCall.swapBuffers]

/-- Erases the view-dependent payloads of a call, leaving the pass shape. -/
def callShape : GLCall → GLCall
  | GLCall.programUniformMatrix4 p l _ => GLCall.programUniformMatrix4 p l {}
  | GLCall.programUniform3 p l _ => GLCall.programUniform3 p l {}
  | c => c

/-- The clear masks appearing in a call list, in order. -/
def clearMasks (calls : List GLCall) : List Nat :=
  calls.filterMap fun c =>
    match c with
    | GLCall.clear mask => some mask
    | _ => none

/-- Claim C9: every frame executes the fixed pass sequence — bind the main
framebuffer and clear only the depth/stencil buffer (the single clear of
the frame uses GL_DEPTH_BUFFER_BIT, which shares no bit with
GL_COLOR_BUFFER_BIT and lies within the depth/stencil bits), then the
skybox draw with depth test disabled, then the model draw with depth test
enabled and 7 textures at units 0-6, then the framebuffer resolve, then
the tonemap full-screen-quad draw to the default target, then the present;
and the pass shape does not branch on anything but the ViewSettings value
(it is identical for any two view inputs). -/
theorem render_pass_sequence (st : RendererState) (view v1 v2 : ViewSettings) :
    render st view =
      [GLCall.programUniformMatrix4 st.m_skyboxProgram ViewProjectionMatrix view,
        GLCall.programUniformMatrix4 st.m_pbrProgram ViewProjectionMatrix view,
        GLCall.programUniform3 st.m_pbrProgram EyePosition view]
      ++ [GLCall.bindFramebuffer st.m_framebuffer.id,
        GLCall.clear GL_DEPTH_BUFFER_BIT]
      ++ [GLCall.disable GL_DEPTH_TEST,
        GLCall.useProgram st.m_skyboxProgram,
        GLCall.bindTextureUnit 0 st.m_envTexture.id,
        GLCall.bindVertexArray st.m_skybox.vao,
        GLCall.drawElements GL_TRIANGLES st.m_skybox.numElements GL_UNSIGNED_INT]
      ++ [GLCall.enable GL_DEPTH_TEST,
        GLCall.useProgram st.m_pbrProgram,
        GLCall.bindTextureUnit 0 st.m_albedoTexture.id,
        GLCall.bindTextureUnit 1 st.m_normalTexture.id,
        GLCall.bindTextureUnit 2 st.m_metalnessTexture.id,
        GLCall.bindTextureUnit 3 st.m_roughnessTexture.id,
        GLCall.bindTextureUnit 4 st.m_irmapTexture.id,
        GLCall.bindTextureUnit 5 st.m_spmapTexture.id,
        GLCall.bindTextureUnit 6 st.m_spBRDF_LUT.id,
        GLCall.bindVertexArray st.m_pbrModel.vao,
        GLCall.drawElements GL_TRIANGLES st.m_pbrModel.numElements GL_UNSIGNED_INT]
      ++ (resolveFramebuffer st.m_framebuffer st.m_resolveFramebuffer).2.2
      ++ [GLCall.bindFramebuffer 0,
        GLCall.useProgram st.m_tonemapProgram,
        GLCall.bindTextureUnit 0 st.m_resolveFramebuffer.colorTarget,
        GLCall.bindVertexArray st.m_screenQuad.vao,
        GLCall.drawArrays GL_TRIANGLE_STRIP 0 4,
        GLCall.swapBuffers]
  ∧ clearMasks (render st view) = [GL_DEPTH_BUFFER_BIT]
  ∧ GL_DEPTH_BUFFER_BIT &&& GL_COLOR_BUFFER_BIT = 0
  ∧ GL_DEPTH_BUFFER_BIT &&& (GL_DEPTH_BUFFER_BIT ||| GL_STENCIL_BUFFER_BIT)
      = GL_DEPTH_BUFFER_BIT
  ∧ (render st v1).map callShape = (render st v2).map callShape := by
  refine ⟨rfl, ?_, by decide, by decide, ?_⟩
  · rw [render]
    by_cases h : st.m_framebuffer.id = st.m_resolveFramebuffer.id <;>
      simp [resolveFramebuffer, h, clearMasks]
  · simp only [render, List.map_append, List.map_cons, List.map_nil, callShape]

/-! ### initialize and shutdown (opengl.cpp lines 27-93) -/

/-- Result of the framebuffer part of Renderer.initialize: the main and
resolve framebuffer records, the identifiers handed out by the
glCreateFramebuffers calls made (in order), and the advanced counter. -/
structure InitResult where
  mainFB : FrameBuffer
  resolveFB : FrameBuffer
  createdFBs : List Nat
  counter : Nat
deriving Repr, DecidableEq

/-- Renderer.initialize(width, height, samples), framebuffer setup (lines
58-64): the main target is created with the requested sample count; with
samples > 0 a second single-sample resolve target with no depth/stencil
attachment is created, otherwise the resolve record is the main record
itself and no second framebuffer object exists. -/
def initRenderer (c0 : Nat) (width height samples : Int) : InitResult :=
  let r1 := createFrameBuffer c0 width height samples GL_RGBA16F GL_DEPTH24_STENCIL8
  if samples > 0 then
    let r2 := createFrameBuffer r1.counter width height 0 GL_RGBA16F GL_NONE
    { mainFB := r1.fb, resolveFB := r2.fb,
      createdFBs := [r1.fb.id, r2.fb.id], counter := r2.counter }
  else
    { mainFB := r1.fb, resolveFB := r1.fb,
      createdFBs := [r1.fb.id], counter := r1.counter }

/-- Renderer.shutdown: deletes the resolve framebuffer only when it is a
distinct object from the main framebuffer, then the main framebuffer, the
three vertex buffers, the three programs and the eight textures. -/
def shutdown (st : RendererState) : List GLCall :=
  (if st.m_framebuffer.id ≠ st.m_resolveFramebuffer.id then
      (deleteFrameBuffer st.m_resolveFramebuffer).2 else [])
  ++ (deleteFrameBuffer st.m_framebuffer).2
  ++ (deleteVertexBuffer st.m_screenQuad).2
  ++ (deleteVertexBuffer st.m_skybox).2
  ++ (deleteVertexBuffer st.m_pbrModel).2
  ++ [GLCall.deleteProgram st.m_tonemapProgram,
    GLCall.deleteProgram st.m_skyboxProgram,
    GLCall.deleteProgram st.m_pbrProgram]
  ++ (deleteTexture st.m_envTexture).2
  ++ (deleteTexture st.m_irmapTexture).2
  ++ (deleteTexture st.m_spmapTexture).2
  ++ (deleteTexture st.m_spBRDF_LUT).2
  ++ (deleteTexture st.m_albedoTexture).2
  ++ (deleteTexture st.m_normalTexture).2
  ++ (deleteTexture st.m_metalnessTexture).2
  ++ (deleteTexture st.m_roughnessTexture).2

/-- The identifiers passed to glDeleteFramebuffers in a call list. -/
def fbDeleteIds (calls : List GLCall) : List Nat :=
  calls.filterMap fun c =>
    match c with
    | GLCall.deleteFramebuffers i => some i
    | _ => none

theorem fbDeleteIds_append (a b : List GLCall) :
    fbDeleteIds (a ++ b) = fbDeleteIds a ++ fbDeleteIds b :=
  List.filterMap_append a b _

theorem fbDeleteIds_nil : fbDeleteIds [] = [] := rfl

theorem fbDeleteIds_programs (a b c : Nat) :
    fbDeleteIds [GLCall.deleteProgram a, GLCall.deleteProgram b,
      GLCall.deleteProgram c] = [] := rfl

theorem fbDeleteIds_deleteTexture (t : Texture) :
    fbDeleteIds (deleteTexture t).2 = [] := rfl

theorem fbDeleteIds_deleteVertexBuffer (vb : VertexBuffer) :
    fbDeleteIds (deleteVertexBuffer vb).2 = [] := by
  rw [deleteVertexBuffer, fbDeleteIds]
  split_ifs <;> rfl

theorem fbDeleteIds_deleteFrameBuffer (fb : FrameBuffer) :
    fbDeleteIds (deleteFrameBuffer fb).2 =
      if fb.id ≠ 0 then [fb.id] else [] := by
  rw [deleteFrameBuffer]
  simp only [fbDeleteIds_append]
  rw [fbDeleteIds, fbDeleteIds, fbDeleteIds]
  split_ifs <;> rfl

theorem fbDeleteIds_shutdown (st : RendererState) :
    fbDeleteIds (shutdown st) =
      (if st.m_framebuffer.id ≠ st.m_resolveFramebuffer.id then
          (if st.m_resolveFramebuffer.id ≠ 0 then [st.m_resolveFramebuffer.id] else [])
        else [])
      ++ (if st.m_framebuffer.id ≠ 0 then [st.m_framebuffer.id] else []) := by
  rw [shutdown]
  simp only [fbDeleteIds_append, apply_ite fbDeleteIds, fbDeleteIds_nil,
    fbDeleteIds_deleteTexture, fbDeleteIds_deleteVertexBuffer,
    fbDeleteIds_deleteFrameBuffer, fbDeleteIds_programs,
    List.append_nil, List.nil_append]

/-- Claim C10: with samples == 0 initialize makes the resolve framebuffer
record the very record of the main framebuffer and creates only one
framebuffer object; shutdown deletes the resolve framebuffer only when its
identifier differs from the main one, so the framebuffer identifiers
deleted by shutdown are exactly the identifiers created by initialize,
each once (no double free). -/
theorem init_shutdown_fb_once (c0 : Nat) (width height samples : Int)
    (rest : RendererState) :
    (samples = 0 →
      (initRenderer c0 width height samples).resolveFB
          = (initRenderer c0 width height samples).mainFB
      ∧ (initRenderer c0 width height samples).createdFBs
          = [(initRenderer c0 width height samples).mainFB.id])
  ∧ (initRenderer c0 width height samples).createdFBs.Nodup
  ∧ (fbDeleteIds (shutdown { rest with
        m_framebuffer := (initRenderer c0 width height samples).mainFB,
        m_resolveFramebuffer := (initRenderer c0 width height samples).resolveFB })).Perm
      (initRenderer c0 width height samples).createdFBs := by
  by_cases hs : samples > 0
  · have hinit : initRenderer c0 width height samples =
        InitResult.mk (FrameBuffer.mk (c0 + 1) (c0 + 2) (c0 + 3) width height samples)
          (FrameBuffer.mk (c0 + 4) (c0 + 5) 0 width height 0)
          [c0 + 1, c0 + 4] (c0 + 5) := by
      simp [initRenderer, createFrameBuffer, hs, GL_RGBA16F, GL_DEPTH24_STENCIL8, GL_NONE]
    have hne : c0 + 1 ≠ c0 + 4 := by omega
    refine ⟨fun h0 => absurd h0 (by omega), ?_, ?_⟩
    · rw [hinit]
      simp [hne]
    · rw [hinit, fbDeleteIds_shutdown]
      simpa [hne] using List.Perm.swap (c0 + 1) (c0 + 4) []
  · have hinit : initRenderer c0 width height samples =
        InitResult.mk (FrameBuffer.mk (c0 + 1) (c0 + 2) (c0 + 3) width height samples)
          (FrameBuffer.mk (c0 + 1) (c0 + 2) (c0 + 3) width height samples)
          [c0 + 1] (c0 + 3) := by
      simp [initRenderer, createFrameBuffer, hs, GL_RGBA16F, GL_DEPTH24_STENCIL8, GL_NONE]
    refine ⟨fun _ => ?_, ?_, ?_⟩
    · rw [hinit]
      exact ⟨rfl, rfl⟩
    · rw [hinit]
      simp
    · rw [hinit, fbDeleteIds_shutdown]
      simp

/-- Witness for claim C10 in both regimes: samples = 0 (one framebuffer,
shared record, deleted once) and samples = 16 (two framebuffers, each
deleted once). -/
theorem init_shutdown_fb_once_witness :
    (initRenderer 0 1024 768 0).resolveFB = (initRenderer 0 1024 768 0).mainFB
  ∧ (initRenderer 0 1024 768 0).createdFBs = [(initRenderer 0 1024 768 0).mainFB.id]
  ∧ (fbDeleteIds (shutdown { ({} : RendererState) with
        m_framebuffer := (initRenderer 0 1024 768 0).mainFB,
        m_resolveFramebuffer := (initRenderer 0 1024 768 0).resolveFB })).Perm
      (initRenderer 0 1024 768 0).createdFBs
  ∧ (fbDeleteIds (shutdown { ({} : RendererState) with
        m_framebuffer := (initRenderer 0 1024 768 16).mainFB,
        m_resolveFramebuffer := (initRenderer 0 1024 768 16).resolveFB })).Perm
      (initRenderer 0 1024 768 16).createdFBs := by
  have h0 := init_shutdown_fb_once 0 1024 768 0 ({} : RendererState)
  have h16 := init_shutdown_fb_once 0 1024 768 16 ({} : RendererState)
  exact ⟨(h0.1 rfl).1, (h0.1 rfl).2, h0.2.2, h16.2.2⟩

end PBR
